import Mathlib

/-!
Verification of `GEOMetaX/downloader.py` against its specification.

The module is a thin I/O wrapper: an HTTP downloader (`download_file`), a
two-phase API fetch that writes a CSV
(`fetch_chromatin_remodelers_and_synonyms`), and an installer entry point
(`install_data`).  We embed it shallowly:

  * the filesystem is an association list from paths to byte contents
    (writing prepends, lookup takes the newest entry, so a write
    overwrites);
  * a path is its list of components; `pathlib` `/` is list append;
  * the result of one `requests.get` call is an oracle value: either a
    response carrying a status code and a body, or a raised
    `requests.exceptions.RequestException`;
  * Python exceptions become an explicit `Except`; a `try`/`except` block
    becomes a `match` on the body result, re-raising what the clause does
    not catch;
  * `response.raise_for_status()` follows the requests library: it raises
    `HTTPError` exactly when `400 ≤ status < 600`;
  * `response.json()` is modelled by the oracle carrying `Option α`:
    `none` means the body is not valid JSON and `.json()` raises a decode
    error (a `RequestException` subclass in current requests);
  * `os.makedirs(p, exist_ok=True)` creates every missing ancestor of `p`
    in order; with `exist_ok=False` it raises `FileExistsError` when `p`
    already exists.

JSON payloads are structured values: the gene-set response optionally has
an `associations` list whose members carry `gene.symbol` and `gene.href`;
the per-gene response optionally has a `synonyms` list.  `dict.get` with a
default becomes `Option.getD`.
-/

namespace GEOMetaX

/-- A filesystem path, as its list of components. -/
abbrev Path := List String

/-- The filesystem: an association list from paths to file bytes.
Lookup takes the newest binding, so writing the same path again
overwrites. -/
abbrev FS := List (Path × List Nat)

/-- Look up the contents of the file at `p`, newest binding first. -/
def fsGet (fs : FS) (p : Path) : Option (List Nat) :=
  match fs with
  | [] => none
  | (q, b) :: rest => if q = p then some b else fsGet rest p

/-- Write bytes `b` to path `p` (shadowing any older binding). -/
def fsWrite (fs : FS) (p : Path) (b : List Nat) : FS :=
  (p, b) :: fs

/-- The outcome of one `requests.get(url)` call, as a network oracle
value: a response with an HTTP status code and raw body bytes, or a
raised `requests.exceptions.RequestException`. -/
inductive HttpResult where
  | response (status : Nat) (content : List Nat)
  | requestException (msg : String)

/-- The Python exceptions this module can raise.  In current versions of
the requests library, `HTTPError` (from `raise_for_status`) and the JSON
decode error are both subclasses of `RequestException`;
`FileExistsError` is not. -/
inductive PyException where
  | requestException (msg : String)
  | httpError (status : Nat)
  | jsonDecodeError
  | fileExistsError
deriving DecidableEq

/-- Whether an `except requests.exceptions.RequestException` clause
catches the exception. -/
def isRequestExceptionExc : PyException → Bool
  | .requestException _ => true
  | .httpError _ => true
  | .jsonDecodeError => true
  | .fileExistsError => false

/-- What `download_file` leaves behind: the filesystem and the printed
messages. -/
structure DownloadOutcome where
  fs : FS
  log : List String
deriving DecidableEq

/-- The body of the `try` block of `download_file`: perform the GET
(raising when the oracle says the request raised), then on status 200
write the body bytes to `folder / filename`, otherwise print a failure
message.  `net` is the oracle value for this URL. -/
def download_file_body (net : HttpResult) (fs : FS) (folder : Path)
    (filename : String) : Except PyException DownloadOutcome :=
  match net with
  | .requestException m => .error (.requestException m)
  | .response status content =>
    if status = 200 then
      .ok { fs := fsWrite fs (folder ++ [filename]) content,
            log := ["Downloaded and saved " ++ filename] }
    else
      .ok { fs := fs,
            log := ["Failed to download (Status code: " ++ toString status ++ ")"] }

/-- `download_file(url, folder, filename)`: the `try` body wrapped in
`except requests.exceptions.RequestException as e`, which prints the
error and returns normally; any other exception would propagate. -/
def download_file (net : HttpResult) (fs : FS) (folder : Path)
    (filename : String) : Except PyException DownloadOutcome :=
  match download_file_body net fs folder filename with
  | .ok out => .ok out
  | .error e =>
    if isRequestExceptionExc e then
      .ok { fs := fs, log := ["Error downloading: current request raised"] }
    else
      .error e

/-- C1: on an HTTP 200 response with body `content`, `download_file`
writes exactly `content` to the path `folder / filename`, overwriting
whatever was there: afterwards the file at that path holds `content`,
whatever the previous filesystem was. -/
theorem download_file_writes_body_on_200 (fs : FS) (folder : Path)
    (filename : String) (content : List Nat) :
    download_file (.response 200 content) fs folder filename =
      .ok { fs := fsWrite fs (folder ++ [filename]) content,
            log := ["Downloaded and saved " ++ filename] } ∧
    fsGet (fsWrite fs (folder ++ [filename]) content) (folder ++ [filename]) =
      some content := by
  constructor
  · rfl
  · simp [fsGet, fsWrite]

/-- C4: on any HTTP status other than 200, `download_file` leaves the
filesystem untouched (no file created or written at the destination) and
only logs the failure with the status code. -/
theorem download_file_no_write_on_non200 (fs : FS) (folder : Path)
    (filename : String) (status : Nat) (content : List Nat)
    (h : status ≠ 200) :
    download_file (.response status content) fs folder filename =
      .ok { fs := fs,
            log := ["Failed to download (Status code: " ++ toString status ++ ")"] } := by
  simp [download_file, download_file_body, h]

/-- Witness for C4 at status 404. -/
theorem download_file_no_write_on_non200_witness :
    download_file (.response 404 [7, 7]) [] ["data"] "f.gz" =
      .ok { fs := [],
            log := ["Failed to download (Status code: " ++ toString 404 ++ ")"] } :=
  download_file_no_write_on_non200 [] ["data"] "f.gz" 404 [7, 7] (by decide)

/-- `download_file` never propagates an exception: every call returns an
outcome. -/
theorem download_file_total (net : HttpResult) (fs : FS) (folder : Path)
    (filename : String) :
    ∃ out, download_file net fs folder filename = .ok out := by
  match net with
  | .requestException m =>
    exact ⟨_, rfl⟩
  | .response status content =>
    by_cases h : status = 200
    · subst h; exact ⟨_, rfl⟩
    · have h2 : download_file (.response status content) fs folder filename =
          .ok { fs := fs,
                log := ["Failed to download (Status code: " ++ toString status ++ ")"] } := by
        simp [download_file, download_file_body, h]
      exact ⟨_, h2⟩

/-- C5: `download_file` always returns normally (no exception reaches the
caller, and no value distinguishes success from failure beyond the log),
and on a network-level error (`RequestException`: timeout, DNS failure,
connection reset) the exception is caught, an error message is printed,
and no file is created: the filesystem comes back unchanged. -/
theorem download_file_total_and_swallows (net : HttpResult) (fs : FS)
    (folder : Path) (filename : String) :
    (∃ out, download_file net fs folder filename = .ok out) ∧
    (∀ m, download_file (.requestException m) fs folder filename =
      .ok { fs := fs, log := ["Error downloading: current request raised"] }) :=
  ⟨download_file_total net fs folder filename, fun _ => rfl⟩

/-- C10: when `download_file` fails (non-200 status, or a network-level
error), any file already present anywhere on the filesystem, in
particular at the destination path, is left byte-for-byte unchanged: the
returned filesystem is the input filesystem. -/
theorem download_file_failure_preserves_files (fs : FS) (folder : Path)
    (filename : String) (p : Path) (b : List Nat) (status : Nat)
    (content : List Nat) (m : String)
    (hfile : fsGet fs p = some b) (hstatus : status ≠ 200) :
    (∃ lg, download_file (.response status content) fs folder filename =
        .ok { fs := fs, log := lg } ∧ fsGet fs p = some b) ∧
    (∃ lg, download_file (.requestException m) fs folder filename =
        .ok { fs := fs, log := lg } ∧ fsGet fs p = some b) := by
  refine ⟨⟨["Failed to download (Status code: " ++ toString status ++ ")"], ?_, hfile⟩,
    ⟨["Error downloading: current request raised"], rfl, hfile⟩⟩
  simp [download_file, download_file_body, hstatus]

/-- Witness for C10: a pre-existing file at the destination survives a
404 and a connection error. -/
theorem download_file_failure_preserves_files_witness :
    (∃ lg, download_file (.response 404 [9]) [(["d", "f"], [1, 2])] ["d"] "f" =
        .ok { fs := [(["d", "f"], [1, 2])], log := lg } ∧
        fsGet [(["d", "f"], [1, 2])] ["d", "f"] = some [1, 2]) ∧
    (∃ lg, download_file (.requestException "reset") [(["d", "f"], [1, 2])] ["d"] "f" =
        .ok { fs := [(["d", "f"], [1, 2])], log := lg } ∧
        fsGet [(["d", "f"], [1, 2])] ["d", "f"] = some [1, 2]) :=
  download_file_failure_preserves_files [(["d", "f"], [1, 2])] ["d"] "f"
    ["d", "f"] [1, 2] 404 [9] "reset" (by simp [fsGet]) (by decide)

/-- One entry of the `associations` list of the gene-set JSON: the
fields of `association["gene"]` that the code reads. -/
structure Assoc where
  symbol : String
  href : String
deriving DecidableEq

/-- The gene-set endpoint JSON body; `associations := none` models a
JSON object with no `associations` field, so that
`data.get("associations", [])` falls back to the empty list. -/
structure GeneSetJson where
  associations : Option (List Assoc)
deriving DecidableEq

/-- The per-gene endpoint JSON body; `synonyms := none` models a JSON
object with no `synonyms` field. -/
structure GeneJson where
  synonyms : Option (List String)
deriving DecidableEq

/-- The outcome of a `requests.get` against a JSON API endpoint: a
response with a status code and a parsed body (`none` when the body is
not valid JSON, in which case `.json()` raises), or a raised
`RequestException`. -/
inductive ApiResult (α : Type) where
  | response (status : Nat) (json : Option α)
  | requestException (msg : String)

/-- `response.raise_for_status()` from the requests library: raises
`HTTPError` exactly when the status code is in `[400, 600)`. -/
def raise_for_status (status : Nat) : Except PyException Unit :=
  if 400 ≤ status ∧ status < 600 then .error (.httpError status) else .ok ()

/-- The hardcoded Harmonizome base URL. -/
def base_url : String := "https://maayanlab.cloud/Harmonizome"

/-- One record accumulated into `chromatin_data`. -/
structure CsvRow where
  chromatin_remodeler : String
  synonyms : String
deriving DecidableEq

/-- The synonyms column value:
`", ".join(synonyms) if synonyms else ""`. -/
def joinSynonyms (synonyms : List String) : String :=
  if synonyms = [] then "" else String.intercalate ", " synonyms

/-- The record built for one gene from its symbol and its detail
response body. -/
def rowOfGene (symbol : String) (geneData : GeneJson) : CsvRow :=
  { chromatin_remodeler := symbol,
    synonyms := joinSynonyms (geneData.synonyms.getD []) }

/-- The per-association loop of `fetch_chromatin_remodelers_and_synonyms`:
for each association, GET `base_url + association["gene"]["href"]`
(`geneNet` is the network oracle keyed by URL), call
`raise_for_status`, parse the JSON, and append a record; the first
exception aborts the whole loop. -/
def fetchGeneLoop (geneNet : String → ApiResult GeneJson) :
    List Assoc → Except PyException (List CsvRow)
  | [] => .ok []
  | a :: rest =>
    match geneNet (base_url ++ a.href) with
    | .requestException m => .error (.requestException m)
    | .response status json =>
      match raise_for_status status with
      | .error e => .error e
      | .ok _ =>
        match json with
        | none => .error .jsonDecodeError
        | some geneData =>
          match fetchGeneLoop geneNet rest with
          | .error e => .error e
          | .ok rows => .ok (rowOfGene a.symbol geneData :: rows)

/-- The `try` body of `fetch_chromatin_remodelers_and_synonyms` up to
(but not including) the file write: GET the gene-set URL, call
`raise_for_status`, parse the JSON, read
`data.get("associations", [])`, then run the per-gene loop. -/
def fetchTry (geneSet : ApiResult GeneSetJson)
    (geneNet : String → ApiResult GeneJson) :
    Except PyException (List CsvRow) :=
  match geneSet with
  | .requestException m => .error (.requestException m)
  | .response status json =>
    match raise_for_status status with
    | .error e => .error e
    | .ok _ =>
      match json with
      | none => .error .jsonDecodeError
      | some data => fetchGeneLoop geneNet (data.associations.getD [])

/-- The CSV header record written by `writer.writeheader()`. -/
def csvHeader : List String := ["chromatin_remodeler", "synonyms"]

/-- The CSV record written for one accumulated row. -/
def rowRecord (r : CsvRow) : List String := [r.chromatin_remodeler, r.synonyms]

/-- What the fetch leaves behind: `csv = some records` when the output
file was written with exactly those records (header included), `none`
when no file was created; plus the printed messages. -/
structure FetchOutcome where
  csv : Option (List (List String))
  log : List String
deriving DecidableEq

/-- The message printed by the matching `except` clause: the first
clause catches `RequestException` (which `HTTPError` and, in current
requests, the JSON decode error subclass), the second catches any other
`Exception`. -/
def exceptionLog : PyException → String
  | .requestException _ => "Error during API request"
  | .httpError _ => "Error during API request"
  | .jsonDecodeError => "Error during API request"
  | .fileExistsError => "An error occurred"

/-- `fetch_chromatin_remodelers_and_synonyms(output_csv)`: run the
`try` body; on success open the output file and write the header record
followed by all accumulated records; on any exception print an error
message and write nothing.  The write happens only after every request
has succeeded, so no partial file ever exists. -/
def fetch_chromatin_remodelers_and_synonyms
    (geneSet : ApiResult GeneSetJson)
    (geneNet : String → ApiResult GeneJson) : FetchOutcome :=
  match fetchTry geneSet geneNet with
  | .ok rows =>
    { csv := some (csvHeader :: rows.map rowRecord),
      log := ["Data successfully saved"] }
  | .error e => { csv := none, log := [exceptionLog e] }

/-- When every detail URL answers with a non-raising status and a JSON
body, the loop succeeds and returns one record per association, in
order. -/
theorem fetchGeneLoop_all_ok (statusOf : String → Nat)
    (synsOf : String → List String) (assocs : List Assoc)
    (h : ∀ a ∈ assocs, ¬(400 ≤ statusOf (base_url ++ a.href) ∧
      statusOf (base_url ++ a.href) < 600)) :
    fetchGeneLoop
      (fun url => .response (statusOf url) (some { synonyms := some (synsOf url) }))
      assocs =
    .ok (assocs.map fun a =>
      { chromatin_remodeler := a.symbol,
        synonyms := joinSynonyms (synsOf (base_url ++ a.href)) }) := by
  induction assocs with
  | nil => rfl
  | cons a rest ih =>
    have ha := h a (List.mem_cons_self a rest)
    have hrest : ∀ b ∈ rest, ¬(400 ≤ statusOf (base_url ++ b.href) ∧
        statusOf (base_url ++ b.href) < 600) :=
      fun b hb => h b (List.mem_cons_of_mem a hb)
    simp [fetchGeneLoop, raise_for_status, ha, ih hrest, rowOfGene]

/-- C2: when the gene-set response succeeds with `N` associations and
every per-gene detail request succeeds, the output CSV holds exactly
`N + 1` records: the header `chromatin_remodeler,synonyms` followed by
one record per association in order, whose synonyms column is the empty
string when the synonym list of that gene is empty and otherwise the
synonyms joined by a comma and a space. -/
theorem fetch_csv_shape (assocs : List Assoc) (s : Nat)
    (statusOf : String → Nat) (synsOf : String → List String)
    (hs : ¬(400 ≤ s ∧ s < 600))
    (h : ∀ a ∈ assocs, ¬(400 ≤ statusOf (base_url ++ a.href) ∧
      statusOf (base_url ++ a.href) < 600)) :
    ∃ records,
      fetch_chromatin_remodelers_and_synonyms
        (.response s (some { associations := some assocs }))
        (fun url => .response (statusOf url) (some { synonyms := some (synsOf url) })) =
        { csv := some records, log := ["Data successfully saved"] } ∧
      records = csvHeader :: assocs.map (fun a =>
        [a.symbol,
         if synsOf (base_url ++ a.href) = [] then ""
         else String.intercalate ", " (synsOf (base_url ++ a.href))]) ∧
      records.length = assocs.length + 1 := by
  refine ⟨_, ?_, rfl, by simp⟩
  simp only [fetch_chromatin_remodelers_and_synonyms, fetchTry, raise_for_status,
    hs, if_false, Option.getD, fetchGeneLoop_all_ok statusOf synsOf assocs h]
  simp [rowRecord, joinSynonyms, Function.comp]

/-- Three sample associations, used only as a concrete test input. -/
def sampleAssocs : List Assoc :=
  [{ symbol := "G1", href := "/h1" }, { symbol := "G2", href := "/h2" },
   { symbol := "G3", href := "/h3" }]

/-- Sample synonym lists of sizes 0, 2 and 1, keyed by URL, used only as
a concrete test input. -/
def sampleSyns (url : String) : List String :=
  if url = base_url ++ "/h2" then ["SYN1", "SYN2"]
  else if url = base_url ++ "/h3" then ["S3"] else []

/-- Witness for C2, with three associations whose synonym lists have
sizes 0, 2 and 1: four records come back, the second record (first
gene row) has an empty synonyms column, the third has
`"SYN1, SYN2"`. -/
theorem fetch_csv_shape_witness :
    ∃ records,
      fetch_chromatin_remodelers_and_synonyms
        (.response 200 (some { associations := some sampleAssocs }))
        (fun url => .response 200 (some { synonyms := some (sampleSyns url) })) =
        { csv := some records, log := ["Data successfully saved"] } ∧
      records = [["chromatin_remodeler", "synonyms"],
                 ["G1", ""], ["G2", "SYN1, SYN2"], ["G3", "S3"]] ∧
      records.length = 3 + 1 := by
  have h := fetch_csv_shape sampleAssocs 200 (fun _ => 200) sampleSyns
    (by decide) (by decide)
  obtain ⟨records, h1, h2, h3⟩ := h
  refine ⟨records, h1, ?_, h3⟩
  rw [h2]
  decide

/-- C9: when the gene-set request succeeds with a non-raising status but
the JSON has no `associations` field, or an empty `associations` list,
the CSV is still created, holding only the header record: zero genes is
not treated as a failure. -/
theorem fetch_empty_associations_header_only (s : Nat)
    (geneNet : String → ApiResult GeneJson) (hs : ¬(400 ≤ s ∧ s < 600)) :
    fetch_chromatin_remodelers_and_synonyms
      (.response s (some { associations := none })) geneNet =
      { csv := some [csvHeader], log := ["Data successfully saved"] } ∧
    fetch_chromatin_remodelers_and_synonyms
      (.response s (some { associations := some [] })) geneNet =
      { csv := some [csvHeader], log := ["Data successfully saved"] } := by
  constructor <;>
    simp [fetch_chromatin_remodelers_and_synonyms, fetchTry, raise_for_status,
      hs, fetchGeneLoop]

/-- Witness for C9 at status 200. -/
theorem fetch_empty_associations_header_only_witness :
    fetch_chromatin_remodelers_and_synonyms
      (.response 200 (some { associations := none }))
      (fun _ => .requestException "unused") =
      { csv := some [csvHeader], log := ["Data successfully saved"] } ∧
    fetch_chromatin_remodelers_and_synonyms
      (.response 200 (some { associations := some [] }))
      (fun _ => .requestException "unused") =
      { csv := some [csvHeader], log := ["Data successfully saved"] } :=
  fetch_empty_associations_header_only 200 (fun _ => .requestException "unused")
    (by decide)

/-- A per-gene detail request succeeds: the oracle answers with a
response whose status does not raise and whose body is valid JSON. -/
def detailSucceeds (geneNet : String → ApiResult GeneJson) (a : Assoc) : Prop :=
  ∃ status geneData,
    geneNet (base_url ++ a.href) = .response status (some geneData) ∧
    ¬(400 ≤ status ∧ status < 600)

/-- If any association in the list has a failing detail request, the
whole per-gene loop raises. -/
theorem fetchGeneLoop_fails_of_mem (geneNet : String → ApiResult GeneJson)
    (assocs : List Assoc) (a : Assoc) (ha : a ∈ assocs)
    (hfail : ¬detailSucceeds geneNet a) :
    ∃ e, fetchGeneLoop geneNet assocs = .error e := by
  induction assocs with
  | nil => cases ha
  | cons b rest ih =>
    rcases List.mem_cons.mp ha with hab | harest
    · subst hab
      match hnet : geneNet (base_url ++ a.href) with
      | .requestException m =>
        exact ⟨.requestException m, by simp [fetchGeneLoop, hnet]⟩
      | .response st json =>
        by_cases hst : 400 ≤ st ∧ st < 600
        · exact ⟨.httpError st, by simp [fetchGeneLoop, hnet, raise_for_status, hst]⟩
        · match json with
          | none =>
            exact ⟨.jsonDecodeError, by simp [fetchGeneLoop, hnet, raise_for_status, hst]⟩
          | some gd =>
            exact absurd ⟨st, gd, hnet, hst⟩ hfail
    · obtain ⟨e, he⟩ := ih harest
      match hnet : geneNet (base_url ++ b.href) with
      | .requestException m =>
        exact ⟨.requestException m, by simp [fetchGeneLoop, hnet]⟩
      | .response st json =>
        by_cases hst : 400 ≤ st ∧ st < 600
        · exact ⟨.httpError st, by simp [fetchGeneLoop, hnet, raise_for_status, hst]⟩
        · match json with
          | none =>
            exact ⟨.jsonDecodeError, by simp [fetchGeneLoop, hnet, raise_for_status, hst]⟩
          | some gd =>
            exact ⟨e, by simp [fetchGeneLoop, hnet, raise_for_status, hst, he]⟩

/-- C3: whenever any request of the fetch fails, or an exception is
raised before the write phase, no CSV file is created (not even a
partial one), one error message is printed, and the function returns
normally.  The four conjuncts cover the failure sources: the gene-set
request raising a `RequestException`; the gene-set response having a
raising status; the gene-set body not being valid JSON; and any one
per-gene detail request failing. -/
theorem fetch_failure_no_csv (geneNet : String → ApiResult GeneJson)
    (m : String) (s : Nat) (json : Option GeneSetJson)
    (assocs : List Assoc) (a : Assoc) :
    (fetch_chromatin_remodelers_and_synonyms (.requestException m) geneNet =
      { csv := none, log := ["Error during API request"] }) ∧
    (400 ≤ s → s < 600 →
      (fetch_chromatin_remodelers_and_synonyms (.response s json) geneNet).csv = none ∧
      (fetch_chromatin_remodelers_and_synonyms (.response s json) geneNet).log.length = 1) ∧
    ((fetch_chromatin_remodelers_and_synonyms (.response s none) geneNet).csv = none ∧
      (fetch_chromatin_remodelers_and_synonyms (.response s none) geneNet).log.length = 1) ∧
    (¬(400 ≤ s ∧ s < 600) → a ∈ assocs → ¬detailSucceeds geneNet a →
      (fetch_chromatin_remodelers_and_synonyms
        (.response s (some { associations := some assocs })) geneNet).csv = none ∧
      (fetch_chromatin_remodelers_and_synonyms
        (.response s (some { associations := some assocs })) geneNet).log.length = 1) := by
  refine ⟨rfl, ?_, ?_, ?_⟩
  · intro h4 h6
    constructor <;>
      simp [fetch_chromatin_remodelers_and_synonyms, fetchTry, raise_for_status, h4, h6]
  · by_cases hst : 400 ≤ s ∧ s < 600
    · constructor <;>
        simp [fetch_chromatin_remodelers_and_synonyms, fetchTry, raise_for_status, hst]
    · constructor <;>
        simp [fetch_chromatin_remodelers_and_synonyms, fetchTry, raise_for_status, hst]
  · intro hst ha hfail
    obtain ⟨e, he⟩ := fetchGeneLoop_fails_of_mem geneNet assocs a ha hfail
    constructor <;>
      simp [fetch_chromatin_remodelers_and_synonyms, fetchTry, raise_for_status, hst, he]

/-- Witness for C3: a raising gene-set status (500), an invalid JSON
body, and one failing detail request (a connection error on the only
gene) each leave no CSV behind. -/
theorem fetch_failure_no_csv_witness :
    (fetch_chromatin_remodelers_and_synonyms (.requestException "timeout")
      (fun _ => ApiResult.requestException "unused") =
      { csv := none, log := ["Error during API request"] }) ∧
    ((fetch_chromatin_remodelers_and_synonyms
        (.response 500 (some { associations := some sampleAssocs }))
        (fun _ => ApiResult.requestException "unused")).csv = none ∧
      (fetch_chromatin_remodelers_and_synonyms
        (.response 500 (some { associations := some sampleAssocs }))
        (fun _ => ApiResult.requestException "unused")).log.length = 1) ∧
    ((fetch_chromatin_remodelers_and_synonyms (.response 500 none)
        (fun _ => ApiResult.requestException "unused")).csv = none ∧
      (fetch_chromatin_remodelers_and_synonyms (.response 500 none)
        (fun _ => ApiResult.requestException "unused")).log.length = 1) ∧
    ((fetch_chromatin_remodelers_and_synonyms
        (.response 200 (some { associations := some sampleAssocs }))
        (fun _ => ApiResult.requestException "reset")).csv = none ∧
      (fetch_chromatin_remodelers_and_synonyms
        (.response 200 (some { associations := some sampleAssocs }))
        (fun _ => ApiResult.requestException "reset")).log.length = 1) := by
  have h := fetch_failure_no_csv (fun _ => ApiResult.requestException "reset")
    "timeout" 200 (some { associations := some sampleAssocs }) sampleAssocs
    { symbol := "G1", href := "/h1" }
  have h5 := fetch_failure_no_csv (fun _ => ApiResult.requestException "unused")
    "timeout" 500 (some { associations := some sampleAssocs }) sampleAssocs
    { symbol := "G1", href := "/h1" }
  refine ⟨h5.1, h5.2.1 (by decide) (by decide), h5.2.2.1, ?_⟩
  refine h.2.2.2 (by decide) (by decide) ?_
  rintro ⟨st, gd, heq, -⟩
  exact ApiResult.noConfusion heq

/-- C8 as stated is false: `raise_for_status` raises only for statuses
in `[400, 600)`, not for every status outside `[200, 300)`.  At the
concrete input status 304 (not a 2xx status) with a valid JSON body
whose `associations` list is empty, nothing is raised and the CSV is
written. -/
theorem fetch_non2xx_claim_counterexample :
    ¬(200 ≤ 304 ∧ 304 < 300) ∧
    fetch_chromatin_remodelers_and_synonyms
      (.response 304 (some { associations := some [] }))
      (fun _ => ApiResult.requestException "unused") =
      { csv := some [csvHeader], log := ["Data successfully saved"] } := by
  constructor
  · decide
  · rfl

/-- C8 amended: for every response with a status code in `[400, 600)`
(the statuses `raise_for_status` raises on) from the gene-set endpoint
or from any per-gene detail endpoint, the fetch raises an `HTTPError`
internally and the whole operation aborts without writing the CSV. -/
theorem fetch_4xx_5xx_aborts (geneNet : String → ApiResult GeneJson)
    (s : Nat) (json : Option GeneSetJson) (s0 : Nat)
    (assocs : List Assoc) (a : Assoc) (jd : Option GeneJson)
    (h4 : 400 ≤ s) (h6 : s < 600) :
    (fetch_chromatin_remodelers_and_synonyms (.response s json) geneNet).csv = none ∧
    (¬(400 ≤ s0 ∧ s0 < 600) → a ∈ assocs →
      geneNet (base_url ++ a.href) = .response s jd →
      (fetch_chromatin_remodelers_and_synonyms
        (.response s0 (some { associations := some assocs })) geneNet).csv = none) := by
  constructor
  · simp [fetch_chromatin_remodelers_and_synonyms, fetchTry, raise_for_status, h4, h6]
  · intro hs0 ha hnet
    have hfail : ¬detailSucceeds geneNet a := by
      rintro ⟨st, gd, heq, hok⟩
      rw [hnet] at heq
      cases heq
      exact hok ⟨h4, h6⟩
    obtain ⟨e, he⟩ := fetchGeneLoop_fails_of_mem geneNet assocs a ha hfail
    simp [fetch_chromatin_remodelers_and_synonyms, fetchTry, raise_for_status, hs0, he]

/-- Witness for the amended C8 at status 404: a 404 gene-set response
aborts, and a 404 on the detail request of the first sample gene aborts
a fetch whose gene-set response was 200. -/
theorem fetch_4xx_5xx_aborts_witness :
    (fetch_chromatin_remodelers_and_synonyms
      (.response 404 (some { associations := some sampleAssocs }))
      (fun _ => ApiResult.response 404 none)).csv = none ∧
    (fetch_chromatin_remodelers_and_synonyms
      (.response 200 (some { associations := some sampleAssocs }))
      (fun _ => ApiResult.response 404 none)).csv = none := by
  have h := fetch_4xx_5xx_aborts (fun _ => ApiResult.response 404 none)
    404 (some { associations := some sampleAssocs }) 200 sampleAssocs
    { symbol := "G1", href := "/h1" } none (by decide) (by decide)
  exact ⟨h.1, h.2 (by decide) (by decide) rfl⟩

/-- Create a directory if it is missing (one `mkdir` attempt that
ignores an already-existing directory). -/
def insertDir (dirs : List Path) (q : Path) : List Path :=
  if q ∈ dirs then dirs else q :: dirs

/-- The recursive walk of `os.makedirs`: create every missing ancestor
of `p`, shortest first, then `p` itself. -/
def mkdirAll (dirs : List Path) (p : Path) : List Path :=
  ((List.range p.length).map (fun k => p.take (k + 1))).foldl insertDir dirs

/-- `os.makedirs(p, exist_ok=ok)`: with `exist_ok=False` it raises
`FileExistsError` when `p` already exists; otherwise it creates `p` and
all missing ancestors. -/
def makedirs (dirs : List Path) (p : Path) (exist_ok : Bool) :
    Except PyException (List Path) :=
  if exist_ok = false ∧ p ∈ dirs then .error .fileExistsError
  else .ok (mkdirAll dirs p)

theorem mem_insertDir_of_mem (dirs : List Path) (x q : Path) (h : q ∈ dirs) :
    q ∈ insertDir dirs x := by
  unfold insertDir
  split
  · exact h
  · exact List.mem_cons_of_mem x h

theorem self_mem_insertDir (dirs : List Path) (x : Path) : x ∈ insertDir dirs x := by
  unfold insertDir
  split
  · assumption
  · exact List.mem_cons_self x dirs

theorem insertDir_eq_of_mem (dirs : List Path) (x : Path) (h : x ∈ dirs) :
    insertDir dirs x = dirs := by
  unfold insertDir
  simp [h]

theorem mem_foldl_insertDir_of_mem (l : List Path) (dirs : List Path) (q : Path)
    (h : q ∈ dirs) : q ∈ l.foldl insertDir dirs := by
  induction l generalizing dirs with
  | nil => exact h
  | cons x l ih => exact ih _ (mem_insertDir_of_mem dirs x q h)

theorem mem_foldl_insertDir_of_mem_list (l : List Path) (dirs : List Path) (q : Path)
    (h : q ∈ l) : q ∈ l.foldl insertDir dirs := by
  induction l generalizing dirs with
  | nil => cases h
  | cons x l ih =>
    rcases List.mem_cons.mp h with h | h
    · subst h
      exact mem_foldl_insertDir_of_mem l _ q (self_mem_insertDir dirs q)
    · exact ih _ h

theorem foldl_insertDir_eq_of_all_mem (l : List Path) (dirs : List Path)
    (h : ∀ q ∈ l, q ∈ dirs) : l.foldl insertDir dirs = dirs := by
  induction l with
  | nil => rfl
  | cons x l ih =>
    have hx : x ∈ dirs := h x (List.mem_cons_self x l)
    simp only [List.foldl_cons, insertDir_eq_of_mem dirs x hx]
    exact ih (fun q hq => h q (List.mem_cons_of_mem x hq))

theorem mem_mkdirAll_of_mem (dirs : List Path) (p q : Path) (h : q ∈ dirs) :
    q ∈ mkdirAll dirs p :=
  mem_foldl_insertDir_of_mem _ _ _ h

theorem take_mem_mkdirAll (dirs : List Path) (p : Path) (k : Nat)
    (hk : k < p.length) : p.take (k + 1) ∈ mkdirAll dirs p := by
  apply mem_foldl_insertDir_of_mem_list
  exact List.mem_map_of_mem _ (List.mem_range.mpr hk)

theorem self_mem_mkdirAll (dirs : List Path) (p : Path) (h : p ≠ []) :
    p ∈ mkdirAll dirs p := by
  have hl : 0 < p.length := List.length_pos.mpr h
  have hmem := take_mem_mkdirAll dirs p (p.length - 1) (by omega)
  rwa [Nat.sub_add_cancel hl, List.take_length] at hmem

theorem mkdirAll_eq_of_all_mem (dirs : List Path) (p : Path)
    (h : ∀ k, k < p.length → p.take (k + 1) ∈ dirs) : mkdirAll dirs p = dirs := by
  apply foldl_insertDir_eq_of_all_mem
  intro q hq
  obtain ⟨k, hk, rfl⟩ := List.mem_map.mp hq
  exact h k (List.mem_range.mp hk)

/-- Once every directory `mkdirAll dirs p` would create is already in
`D`, running it on `D` changes nothing. -/
theorem mkdirAll_absorb (dirs D : List Path) (p : Path)
    (hsub : ∀ q, q ∈ mkdirAll dirs p → q ∈ D) : mkdirAll D p = D :=
  mkdirAll_eq_of_all_mem D p (fun k hk => hsub _ (take_mem_mkdirAll dirs p k hk))

/-- The four fixed directories created by `install_data`, in creation
order. -/
def installDirs (dataDir : Path) : List Path :=
  [dataDir ++ ["unparsed_factor_data"], dataDir ++ ["unparsed_ontology_data"],
   dataDir ++ ["parsed_factor_data"], dataDir ++ ["parsed_ontology_data"]]

/-- The directory-creation phase of `install_data`: four
`os.makedirs(data_dir / sub, exist_ok=True)` calls in order; an
exception would propagate. -/
def mkdirPhase (dataDir : Path) (dirs : List Path) :
    Except PyException (List Path) :=
  match makedirs dirs (dataDir ++ ["unparsed_factor_data"]) true with
  | .error e => .error e
  | .ok d1 =>
    match makedirs d1 (dataDir ++ ["unparsed_ontology_data"]) true with
    | .error e => .error e
    | .ok d2 =>
      match makedirs d2 (dataDir ++ ["parsed_factor_data"]) true with
      | .error e => .error e
      | .ok d3 => makedirs d3 (dataDir ++ ["parsed_ontology_data"]) true

theorem mkdirPhase_eq (dataDir : Path) (dirs : List Path) :
    mkdirPhase dataDir dirs = .ok
      (mkdirAll (mkdirAll (mkdirAll (mkdirAll dirs
        (dataDir ++ ["unparsed_factor_data"]))
        (dataDir ++ ["unparsed_ontology_data"]))
        (dataDir ++ ["parsed_factor_data"]))
        (dataDir ++ ["parsed_ontology_data"])) := by
  simp [mkdirPhase, makedirs]

/-- The directory phase always succeeds, and running it again on its own
output returns that output unchanged. -/
theorem mkdirPhase_idem (dataDir : Path) (dirs : List Path) :
    ∃ d, mkdirPhase dataDir dirs = .ok d ∧ mkdirPhase dataDir d = .ok d := by
  obtain ⟨D, hD⟩ : ∃ D, mkdirAll (mkdirAll (mkdirAll (mkdirAll dirs
      (dataDir ++ ["unparsed_factor_data"]))
      (dataDir ++ ["unparsed_ontology_data"]))
      (dataDir ++ ["parsed_factor_data"]))
      (dataDir ++ ["parsed_ontology_data"]) = D := ⟨_, rfl⟩
  have m1 : ∀ q, q ∈ mkdirAll dirs (dataDir ++ ["unparsed_factor_data"]) → q ∈ D := by
    intro q h
    rw [← hD]
    exact mem_mkdirAll_of_mem _ _ _ (mem_mkdirAll_of_mem _ _ _ (mem_mkdirAll_of_mem _ _ _ h))
  have m2 : ∀ q, q ∈ mkdirAll (mkdirAll dirs (dataDir ++ ["unparsed_factor_data"]))
      (dataDir ++ ["unparsed_ontology_data"]) → q ∈ D := by
    intro q h
    rw [← hD]
    exact mem_mkdirAll_of_mem _ _ _ (mem_mkdirAll_of_mem _ _ _ h)
  have m3 : ∀ q, q ∈ mkdirAll (mkdirAll (mkdirAll dirs
      (dataDir ++ ["unparsed_factor_data"])) (dataDir ++ ["unparsed_ontology_data"]))
      (dataDir ++ ["parsed_factor_data"]) → q ∈ D := by
    intro q h
    rw [← hD]
    exact mem_mkdirAll_of_mem _ _ _ h
  have m4 : ∀ q, q ∈ mkdirAll (mkdirAll (mkdirAll (mkdirAll dirs
      (dataDir ++ ["unparsed_factor_data"])) (dataDir ++ ["unparsed_ontology_data"]))
      (dataDir ++ ["parsed_factor_data"])) (dataDir ++ ["parsed_ontology_data"]) → q ∈ D := by
    intro q h
    rw [← hD]
    exact h
  refine ⟨D, by rw [mkdirPhase_eq, hD], ?_⟩
  rw [mkdirPhase_eq, mkdirAll_absorb _ _ _ m1, mkdirAll_absorb _ _ _ m2,
    mkdirAll_absorb _ _ _ m3, mkdirAll_absorb _ _ _ m4]

/-- C7: directory creation in `install_data` is idempotent.  For every
state of the directory tree, a `makedirs` call with `exist_ok=True`
never raises; and running the directory phase of the installer a second
time on the state the first run produced succeeds and changes
nothing. -/
theorem install_data_mkdir_idempotent (dataDir : Path) (dirs : List Path) (p : Path) :
    (∃ d, makedirs dirs p true = .ok d) ∧
    (∃ d, mkdirPhase dataDir dirs = .ok d ∧ mkdirPhase dataDir d = .ok d) :=
  ⟨⟨mkdirAll dirs p, by simp [makedirs]⟩, mkdirPhase_idem dataDir dirs⟩

/-- One observable operation of `install_data`, for the trace of what it
attempts, in order. -/
inductive Event where
  | mkdirEvent (p : Path)
  | downloadEvent (url : String) (folder : Path) (filename : String)
  | fetchEvent (output_csv : Path)
deriving DecidableEq

/-- The state `install_data` threads: the directory tree, the byte
files, the CSV files, the trace of attempted operations, and the
printed messages. -/
structure InstallState where
  dirs : List Path
  fs : FS
  csvs : List (Path × List (List String))
  events : List Event
  log : List String

/-- A `for url, filename in zip(urls, filenames)` download loop: each
iteration records its attempt and calls `download_file`; an uncaught
exception would abort the loop (none occurs, `download_file` swallows
its own). -/
def runDownloads (net : String → HttpResult) (folder : Path) :
    List (String × String) → InstallState → Except PyException InstallState
  | [], st => .ok st
  | (url, filename) :: rest, st =>
    match download_file (net url) st.fs folder filename with
    | .error e => .error e
    | .ok out =>
      runDownloads net folder rest
        { st with fs := out.fs,
                  events := st.events ++ [Event.downloadEvent url folder filename],
                  log := st.log ++ out.log }

/-- The two hardcoded factor data URLs. -/
def factor_urls : List String :=
  ["https://ftp.ncbi.nih.gov/gene/DATA/gene_info.gz",
   "https://guolab.wchscu.cn/AnimalTFDB4_static/download/TF_list_final/Homo_sapiens_TF"]

/-- The two factor data filenames. -/
def factor_filenames : List String := ["gene_info.gz", "Homo_sapiens_TF.csv"]

/-- The three hardcoded ontology URLs. -/
def ontology_urls : List String :=
  ["https://ftp.expasy.org/databases/cellosaurus/cellosaurus.txt",
   "https://github.com/EBISPOT/efo/releases/download/current/efo.owl",
   "http://purl.obolibrary.org/obo/uberon/uberon-full.json"]

/-- The three ontology filenames. -/
def ontology_filenames : List String := ["cellosaurus.txt", "efo.owl", "uberon-full.json"]

/-- `install_data()`: create the four directories (`exist_ok=True`),
download the factor files, run the chromatin remodeler fetch into
`parsed_factor_data/chromatin_remodelers.csv`, then download the
ontology files.  `dataDir` stands for the result of `get_data_dir()`
(the package data directory); `net`, `geneSet` and `geneNet` are the
network oracles; `dirs0` and `fs0` the initial filesystem. -/
def install_data (dataDir : Path) (net : String → HttpResult)
    (geneSet : ApiResult GeneSetJson) (geneNet : String → ApiResult GeneJson)
    (dirs0 : List Path) (fs0 : FS) : Except PyException InstallState :=
  match mkdirPhase dataDir dirs0 with
  | .error e => .error e
  | .ok d =>
    let st0 : InstallState :=
      { dirs := d, fs := fs0, csvs := [],
        events := (installDirs dataDir).map Event.mkdirEvent,
        log := ["GEOMetaX | Installing data..."] }
    match runDownloads net (dataDir ++ ["unparsed_factor_data"])
        (factor_urls.zip factor_filenames) st0 with
    | .error e => .error e
    | .ok st1 =>
      let output_csv := dataDir ++ ["parsed_factor_data", "chromatin_remodelers.csv"]
      let fout := fetch_chromatin_remodelers_and_synonyms geneSet geneNet
      let st2 : InstallState :=
        { st1 with
          csvs := match fout.csv with
                  | some records => st1.csvs ++ [(output_csv, records)]
                  | none => st1.csvs,
          events := st1.events ++ [Event.fetchEvent output_csv],
          log := st1.log ++ fout.log }
      runDownloads net (dataDir ++ ["unparsed_ontology_data"])
        (ontology_urls.zip ontology_filenames) st2

/-- The download loop always completes and appends exactly one download
event per pair, in list order, touching neither the directory tree nor
the CSV files. -/
theorem runDownloads_ok (net : String → HttpResult) (folder : Path)
    (pairs : List (String × String)) (st : InstallState) :
    ∃ st2, runDownloads net folder pairs st = .ok st2 ∧
      st2.events = st.events ++ pairs.map (fun pr => Event.downloadEvent pr.1 folder pr.2) ∧
      st2.dirs = st.dirs ∧ st2.csvs = st.csvs := by
  induction pairs generalizing st with
  | nil => exact ⟨st, rfl, by simp, rfl, rfl⟩
  | cons pr rest ih =>
    obtain ⟨url, filename⟩ := pr
    obtain ⟨out, hout⟩ := download_file_total (net url) st.fs folder filename
    obtain ⟨st2, h1, h2, h3, h4⟩ := ih
      { st with fs := out.fs,
                events := st.events ++ [Event.downloadEvent url folder filename],
                log := st.log ++ out.log }
    refine ⟨st2, ?_, ?_, h3, h4⟩
    · simp only [runDownloads, hout]
      exact h1
    · rw [h2]
      simp

/-- C6: every run of `install_data`, whatever the network does, first
creates the four destination directories (which exist afterwards), then
attempts, strictly in this order: the two factor downloads into
`unparsed_factor_data`, the chromatin remodeler fetch into
`parsed_factor_data/chromatin_remodelers.csv`, and the three ontology
downloads into `unparsed_ontology_data`.  The trace does not depend on
any request outcome, so a failure in the factor downloads never
prevents the fetch or the ontology downloads from running. -/
theorem install_data_order_and_independence (dataDir : Path)
    (net : String → HttpResult) (geneSet : ApiResult GeneSetJson)
    (geneNet : String → ApiResult GeneJson) (dirs0 : List Path) (fs0 : FS) :
    ∃ st, install_data dataDir net geneSet geneNet dirs0 fs0 = .ok st ∧
      st.events =
        [Event.mkdirEvent (dataDir ++ ["unparsed_factor_data"]),
         Event.mkdirEvent (dataDir ++ ["unparsed_ontology_data"]),
         Event.mkdirEvent (dataDir ++ ["parsed_factor_data"]),
         Event.mkdirEvent (dataDir ++ ["parsed_ontology_data"]),
         Event.downloadEvent "https://ftp.ncbi.nih.gov/gene/DATA/gene_info.gz"
           (dataDir ++ ["unparsed_factor_data"]) "gene_info.gz",
         Event.downloadEvent
           "https://guolab.wchscu.cn/AnimalTFDB4_static/download/TF_list_final/Homo_sapiens_TF"
           (dataDir ++ ["unparsed_factor_data"]) "Homo_sapiens_TF.csv",
         Event.fetchEvent (dataDir ++ ["parsed_factor_data", "chromatin_remodelers.csv"]),
         Event.downloadEvent "https://ftp.expasy.org/databases/cellosaurus/cellosaurus.txt"
           (dataDir ++ ["unparsed_ontology_data"]) "cellosaurus.txt",
         Event.downloadEvent "https://github.com/EBISPOT/efo/releases/download/current/efo.owl"
           (dataDir ++ ["unparsed_ontology_data"]) "efo.owl",
         Event.downloadEvent "http://purl.obolibrary.org/obo/uberon/uberon-full.json"
           (dataDir ++ ["unparsed_ontology_data"]) "uberon-full.json"] ∧
      ∀ p ∈ installDirs dataDir, p ∈ st.dirs := by
  obtain ⟨st1, hrun1, hev1, hdirs1, hcsv1⟩ := runDownloads_ok net
    (dataDir ++ ["unparsed_factor_data"]) (factor_urls.zip factor_filenames)
    { dirs := mkdirAll (mkdirAll (mkdirAll (mkdirAll dirs0
        (dataDir ++ ["unparsed_factor_data"]))
        (dataDir ++ ["unparsed_ontology_data"]))
        (dataDir ++ ["parsed_factor_data"]))
        (dataDir ++ ["parsed_ontology_data"]),
      fs := fs0, csvs := [],
      events := (installDirs dataDir).map Event.mkdirEvent,
      log := ["GEOMetaX | Installing data..."] }
  obtain ⟨st2, hrun2, hev2, hdirs2, hcsv2⟩ := runDownloads_ok net
    (dataDir ++ ["unparsed_ontology_data"]) (ontology_urls.zip ontology_filenames)
    { st1 with
      csvs := match (fetch_chromatin_remodelers_and_synonyms geneSet geneNet).csv with
              | some records => st1.csvs ++
                  [(dataDir ++ ["parsed_factor_data", "chromatin_remodelers.csv"], records)]
              | none => st1.csvs,
      events := st1.events ++
        [Event.fetchEvent (dataDir ++ ["parsed_factor_data", "chromatin_remodelers.csv"])],
      log := st1.log ++ (fetch_chromatin_remodelers_and_synonyms geneSet geneNet).log }
  refine ⟨st2, ?_, ?_, ?_⟩
  · simp only [install_data, mkdirPhase_eq, hrun1]
    exact hrun2
  · rw [hev2]
    simp only [List.cons_append, List.nil_append]
    rw [hev1]
    simp [installDirs, factor_urls, factor_filenames, ontology_urls, ontology_filenames]
  · intro p hp
    rw [hdirs2]
    simp only [hdirs1]
    have hne : ∀ s : String, dataDir ++ [s] ≠ [] := by
      intro s hcontra
      exact absurd (congrArg List.length hcontra) (by simp)
    simp only [installDirs, List.mem_cons, List.not_mem_nil, or_false] at hp
    rcases hp with rfl | rfl | rfl | rfl
    · exact mem_mkdirAll_of_mem _ _ _ (mem_mkdirAll_of_mem _ _ _
        (mem_mkdirAll_of_mem _ _ _ (self_mem_mkdirAll _ _ (hne _))))
    · exact mem_mkdirAll_of_mem _ _ _ (mem_mkdirAll_of_mem _ _ _
        (self_mem_mkdirAll _ _ (hne _)))
    · exact mem_mkdirAll_of_mem _ _ _ (self_mem_mkdirAll _ _ (hne _))
    · exact self_mem_mkdirAll _ _ (hne _)

/-- Witness for C6: a fully offline run (every request raises) still
attempts all ten operations in order and leaves the four directories in
place. -/
theorem install_data_order_and_independence_witness :
    ∃ st, install_data ["data"] (fun _ => HttpResult.requestException "down")
        (ApiResult.requestException "down")
        (fun _ => ApiResult.requestException "down") [] [] = .ok st ∧
      st.events =
        [Event.mkdirEvent (["data"] ++ ["unparsed_factor_data"]),
         Event.mkdirEvent (["data"] ++ ["unparsed_ontology_data"]),
         Event.mkdirEvent (["data"] ++ ["parsed_factor_data"]),
         Event.mkdirEvent (["data"] ++ ["parsed_ontology_data"]),
         Event.downloadEvent "https://ftp.ncbi.nih.gov/gene/DATA/gene_info.gz"
           (["data"] ++ ["unparsed_factor_data"]) "gene_info.gz",
         Event.downloadEvent
           "https://guolab.wchscu.cn/AnimalTFDB4_static/download/TF_list_final/Homo_sapiens_TF"
           (["data"] ++ ["unparsed_factor_data"]) "Homo_sapiens_TF.csv",
         Event.fetchEvent (["data"] ++ ["parsed_factor_data", "chromatin_remodelers.csv"]),
         Event.downloadEvent "https://ftp.expasy.org/databases/cellosaurus/cellosaurus.txt"
           (["data"] ++ ["unparsed_ontology_data"]) "cellosaurus.txt",
         Event.downloadEvent "https://github.com/EBISPOT/efo/releases/download/current/efo.owl"
           (["data"] ++ ["unparsed_ontology_data"]) "efo.owl",
         Event.downloadEvent "http://purl.obolibrary.org/obo/uberon/uberon-full.json"
           (["data"] ++ ["unparsed_ontology_data"]) "uberon-full.json"] ∧
      ∀ p ∈ installDirs ["data"], p ∈ st.dirs :=
  install_data_order_and_independence ["data"]
    (fun _ => HttpResult.requestException "down") (ApiResult.requestException "down")
    (fun _ => ApiResult.requestException "down") [] []

end GEOMetaX
